import Mathlib

/-!
Verification of the glucose reading classifier (`get_feedback`) and the
record builder (`save_glucose_reading`) from `src/app.py` of the
my-glucose-app repository.

The classifier maps an integer glucose value (mg/dL) and a measurement
context label (a string) to a pair (message, tone).  The three context
labels offered by the UI are the Romanian strings below; any other string
falls into the final `else` branch (the RANDOM rule).
-/

namespace GlucoseApp

/-- The FASTING context label, as offered by the UI selectbox in `src/app.py`. -/
def FASTING : String := "Pe nemâncate"

/-- The POST_MEAL context label (two hours after a meal). -/
def POST_MEAL : String := "După masă (2 ore)"

/-- The RANDOM context label (random check). -/
def RANDOM : String := "Verificare aleatorie"

/-- The fixed hypoglycemia message returned for values below 70. -/
def hypoMessage : String :=
  "⚠️ Hipoglicemie! Consumă imediat 15g carbohidrați rapizi. Verifică din nou în 15 minute."

/-- The fixed severe-hyperglycemia message returned for values above 250. -/
def hyperMessage : String :=
  "🚨 Hiperglicemie severă! Bea apă și contactează medicul dacă nu scade în 2 ore."

/-- FASTING context, good bucket message. -/
def fastingGoodMessage : String := "✅ Control glicemic excelent! Continuă așa!"

/-- FASTING context, warning bucket message. -/
def fastingWarningMessage : String := "⚠️ Valoare la limită. Atenție la dietă și mișcare."

/-- FASTING context, alert bucket message. -/
def fastingAlertMessage : String := "🔴 Glicemie crescută. Consultă medicul pentru ajustări."

/-- POST_MEAL context, good bucket message. -/
def postMealGoodMessage : String := "✅ Excelent! Masa a fost bine tolerată."

/-- POST_MEAL context, neutral bucket message. -/
def postMealNeutralMessage : String := "👍 În limite acceptabile."

/-- POST_MEAL context, alert bucket message. -/
def postMealAlertMessage : String := "🔴 Prea mare după masă. Redu carbohidrații."

/-- RANDOM (default) context, neutral bucket message. -/
def randomNeutralMessage : String := "Valoare normală."

/-- RANDOM (default) context, warning bucket message. -/
def randomWarningMessage : String := "⚠️ Valoare crescută. Monitorizează mai atent."

/-- Embedding of `get_feedback(value, measurement_type)` from `src/app.py`
(lines 149-186): global overrides for dangerous lows and highs first, then
dispatch on the measurement-context string, with the final `else` acting as
the default (random check) rule for any other string. -/
def get_feedback (value : Int) (measurement_type : String) : String × String :=
  if value < 70 then
    (hypoMessage, "urgent")
  else if value > 250 then
    (hyperMessage, "urgent")
  else if measurement_type = "Pe nemâncate" then
    if value ≤ 99 then (fastingGoodMessage, "good")
    else if value ≤ 125 then (fastingWarningMessage, "warning")
    else (fastingAlertMessage, "alert")
  else if measurement_type = "După masă (2 ore)" then
    if value < 140 then (postMealGoodMessage, "good")
    else if value < 180 then (postMealNeutralMessage, "neutral")
    else (postMealAlertMessage, "alert")
  else
    if value < 140 then (randomNeutralMessage, "neutral")
    else (randomWarningMessage, "warning")

/-- A cell of the persisted row: the Python record is a heterogeneous list
mixing strings and the numeric value. -/
inductive Field where
  | str : String → Field
  | num : Int → Field

/-- Embedding of `save_glucose_reading(value, measurement_type, notes)` from
`src/app.py` (lines 188-214).  The current date and time strings come from the
environment, so they are parameters here; `appendFails` models whether the
external sheet append raises.  The result is the built record, the returned
(feedback, tone) pair, and whether an error message was displayed. -/
def save_glucose_reading (dateS timeS : String) (value : Int)
    (measurement_type : String) (notes : String) (appendFails : Bool) :
    List Field × (String × String) × Bool :=
  let fb := get_feedback value measurement_type
  let record : List Field :=
    [Field.str dateS, Field.str timeS, Field.num value, Field.str measurement_type,
     Field.str fb.1, Field.str fb.2, Field.str notes]
  if appendFails then
    (record, fb, true)
  else
    (record, fb, false)

/-- The ten literal (message, tone) pairs that `get_feedback` can return,
one per `return` statement of the Python function. -/
def outputPairs : List (String × String) :=
  [(hypoMessage, "urgent"), (hyperMessage, "urgent"),
   (fastingGoodMessage, "good"), (fastingWarningMessage, "warning"),
   (fastingAlertMessage, "alert"), (postMealGoodMessage, "good"),
   (postMealNeutralMessage, "neutral"), (postMealAlertMessage, "alert"),
   (randomNeutralMessage, "neutral"), (randomWarningMessage, "warning")]

/-- The five tone labels. -/
def toneLabels : List String := ["good", "neutral", "warning", "alert", "urgent"]

/-- The same ten pairs as a finite set, for counting the classifier's range. -/
def tenOutputs : Finset (String × String) :=
  {(hypoMessage, "urgent"), (hyperMessage, "urgent"),
   (fastingGoodMessage, "good"), (fastingWarningMessage, "warning"),
   (fastingAlertMessage, "alert"), (postMealGoodMessage, "good"),
   (postMealNeutralMessage, "neutral"), (postMealAlertMessage, "alert"),
   (randomNeutralMessage, "neutral"), (randomWarningMessage, "warning")}

/-- Every output of the classifier is one of the ten literal pairs. -/
theorem mem_outputPairs (v : Int) (c : String) : get_feedback v c ∈ outputPairs := by
  unfold get_feedback
  split_ifs <;> decide

/-- Claim C1: for every integer value and every context string, a value below 70
returns the fixed hypoglycemia message with tone urgent, before any
context-specific rule; the boundary is at 70, since classify(70, FASTING) is
not urgent. -/
theorem C1_low_value_urgent_override (v : Int) (c : String) (h : v < 70) :
    get_feedback v c = (hypoMessage, "urgent") ∧ (get_feedback 70 FASTING).2 ≠ "urgent" := by
  refine ⟨?_, by decide⟩
  unfold get_feedback
  rw [if_pos h]

/-- Witness for C1 at value 69 in the FASTING context. -/
theorem C1_low_value_urgent_override_witness :
    get_feedback 69 FASTING = (hypoMessage, "urgent") ∧
      (get_feedback 70 FASTING).2 ≠ "urgent" :=
  C1_low_value_urgent_override 69 FASTING (by decide)

/-- Claim C2: for every integer value and every context string, a value above 250
returns the fixed severe-hyperglycemia message with tone urgent, before any
context-specific rule; at 250 the tone is not urgent in any context. -/
theorem C2_high_value_urgent_override (v : Int) (c : String) (h : v > 250) :
    get_feedback v c = (hyperMessage, "urgent") ∧
      ∀ c2 : String, (get_feedback 250 c2).2 ≠ "urgent" := by
  constructor
  · have h70 : ¬ v < 70 := by omega
    unfold get_feedback
    rw [if_neg h70, if_pos h]
  · intro c2
    have h1 : ¬ (250 : Int) < 70 := by decide
    have h2 : ¬ (250 : Int) > 250 := by decide
    unfold get_feedback
    rw [if_neg h1, if_neg h2]
    split_ifs <;> decide

/-- Witness for C2 at value 251 in the RANDOM context, with boundary 250. -/
theorem C2_high_value_urgent_override_witness :
    get_feedback 251 RANDOM = (hyperMessage, "urgent") ∧
      (get_feedback 250 RANDOM).2 ≠ "urgent" :=
  ⟨(C2_high_value_urgent_override 251 RANDOM (by decide)).1,
   (C2_high_value_urgent_override 251 RANDOM (by decide)).2 RANDOM⟩

/-- Claim C3: within the override-free band 70 ≤ v ≤ 250, the FASTING context
yields good for v ≤ 99, warning for 100 ≤ v ≤ 125 and alert for v ≥ 126. -/
theorem C3_fasting_buckets (v : Int) (h1 : 70 ≤ v) (h2 : v ≤ 250) :
    (v ≤ 99 → get_feedback v FASTING = (fastingGoodMessage, "good")) ∧
    (100 ≤ v → v ≤ 125 → get_feedback v FASTING = (fastingWarningMessage, "warning")) ∧
    (126 ≤ v → get_feedback v FASTING = (fastingAlertMessage, "alert")) := by
  have hlow : ¬ v < 70 := by omega
  have hhigh : ¬ v > 250 := by omega
  refine ⟨fun hg => ?_, fun hw1 hw2 => ?_, fun ha => ?_⟩
  · unfold get_feedback FASTING
    rw [if_neg hlow, if_neg hhigh, if_pos rfl, if_pos hg]
  · have hng : ¬ v ≤ 99 := by omega
    unfold get_feedback FASTING
    rw [if_neg hlow, if_neg hhigh, if_pos rfl, if_neg hng, if_pos hw2]
  · have hng : ¬ v ≤ 99 := by omega
    have hnw : ¬ v ≤ 125 := by omega
    unfold get_feedback FASTING
    rw [if_neg hlow, if_neg hhigh, if_pos rfl, if_neg hng, if_neg hnw]

/-- Witness for C3 at the three bucket boundaries 99, 100 and 126. -/
theorem C3_fasting_buckets_witness :
    get_feedback 99 FASTING = (fastingGoodMessage, "good") ∧
    get_feedback 100 FASTING = (fastingWarningMessage, "warning") ∧
    get_feedback 126 FASTING = (fastingAlertMessage, "alert") :=
  ⟨(C3_fasting_buckets 99 (by decide) (by decide)).1 (by decide),
   (C3_fasting_buckets 100 (by decide) (by decide)).2.1 (by decide) (by decide),
   (C3_fasting_buckets 126 (by decide) (by decide)).2.2 (by decide)⟩

/-- Claim C4: within the override-free band 70 ≤ v ≤ 250, the POST_MEAL context
yields good for v < 140, neutral for 140 ≤ v ≤ 179 and alert for v ≥ 180. -/
theorem C4_post_meal_buckets (v : Int) (h1 : 70 ≤ v) (h2 : v ≤ 250) :
    (v < 140 → get_feedback v POST_MEAL = (postMealGoodMessage, "good")) ∧
    (140 ≤ v → v ≤ 179 → get_feedback v POST_MEAL = (postMealNeutralMessage, "neutral")) ∧
    (180 ≤ v → get_feedback v POST_MEAL = (postMealAlertMessage, "alert")) := by
  have hlow : ¬ v < 70 := by omega
  have hhigh : ¬ v > 250 := by omega
  have hs : ¬ ("După masă (2 ore)" = "Pe nemâncate") := by decide
  refine ⟨fun hg => ?_, fun hw1 hw2 => ?_, fun ha => ?_⟩
  · unfold get_feedback POST_MEAL
    rw [if_neg hlow, if_neg hhigh, if_neg hs, if_pos rfl, if_pos hg]
  · have hng : ¬ v < 140 := by omega
    have hlt : v < 180 := by omega
    unfold get_feedback POST_MEAL
    rw [if_neg hlow, if_neg hhigh, if_neg hs, if_pos rfl, if_neg hng, if_pos hlt]
  · have hng : ¬ v < 140 := by omega
    have hnn : ¬ v < 180 := by omega
    unfold get_feedback POST_MEAL
    rw [if_neg hlow, if_neg hhigh, if_neg hs, if_pos rfl, if_neg hng, if_neg hnn]

/-- Witness for C4 at the three bucket boundaries 139, 140 and 180. -/
theorem C4_post_meal_buckets_witness :
    get_feedback 139 POST_MEAL = (postMealGoodMessage, "good") ∧
    get_feedback 140 POST_MEAL = (postMealNeutralMessage, "neutral") ∧
    get_feedback 180 POST_MEAL = (postMealAlertMessage, "alert") :=
  ⟨(C4_post_meal_buckets 139 (by decide) (by decide)).1 (by decide),
   (C4_post_meal_buckets 140 (by decide) (by decide)).2.1 (by decide) (by decide),
   (C4_post_meal_buckets 180 (by decide) (by decide)).2.2 (by decide)⟩

/-- Claim C5: for any context that is neither FASTING nor POST_MEAL (the RANDOM
label or any unrecognized string), values in the override-free band yield
neutral below 140 and warning from 140 on, and the classifier agrees with the
RANDOM context at every value. -/
theorem C5_default_random_rule (v : Int) (c : String) (h1 : 70 ≤ v) (h2 : v ≤ 250)
    (hc1 : c ≠ FASTING) (hc2 : c ≠ POST_MEAL) :
    (v < 140 → get_feedback v c = (randomNeutralMessage, "neutral")) ∧
    (140 ≤ v → get_feedback v c = (randomWarningMessage, "warning")) ∧
    (∀ w : Int, get_feedback w c = get_feedback w RANDOM) := by
  have hlow : ¬ v < 70 := by omega
  have hhigh : ¬ v > 250 := by omega
  have hc1' : ¬ (c = "Pe nemâncate") := by
    unfold FASTING at hc1; exact hc1
  have hc2' : ¬ (c = "După masă (2 ore)") := by
    unfold POST_MEAL at hc2; exact hc2
  have hr1 : ¬ ("Verificare aleatorie" = "Pe nemâncate") := by decide
  have hr2 : ¬ ("Verificare aleatorie" = "După masă (2 ore)") := by decide
  refine ⟨fun hg => ?_, fun hw => ?_, fun w => ?_⟩
  · unfold get_feedback
    rw [if_neg hlow, if_neg hhigh, if_neg hc1', if_neg hc2', if_pos hg]
  · have hng : ¬ v < 140 := by omega
    unfold get_feedback
    rw [if_neg hlow, if_neg hhigh, if_neg hc1', if_neg hc2', if_neg hng]
  · unfold get_feedback RANDOM
    by_cases hw1 : w < 70
    · rw [if_pos hw1, if_pos hw1]
    · by_cases hw2 : w > 250
      · rw [if_neg hw1, if_pos hw2, if_neg hw1, if_pos hw2]
      · rw [if_neg hw1, if_neg hw2, if_neg hc1', if_neg hc2',
            if_neg hw1, if_neg hw2, if_neg hr1, if_neg hr2]

/-- Witness for C5 with the unrecognized context string "necunoscut" at values
139 and 140, and agreement with RANDOM at value 100. -/
theorem C5_default_random_rule_witness :
    get_feedback 139 "necunoscut" = (randomNeutralMessage, "neutral") ∧
    get_feedback 140 "necunoscut" = (randomWarningMessage, "warning") ∧
    get_feedback 100 "necunoscut" = get_feedback 100 RANDOM :=
  ⟨(C5_default_random_rule 139 "necunoscut" (by decide) (by decide)
      (by decide) (by decide)).1 (by decide),
   (C5_default_random_rule 140 "necunoscut" (by decide) (by decide)
      (by decide) (by decide)).2.1 (by decide),
   (C5_default_random_rule 140 "necunoscut" (by decide) (by decide)
      (by decide) (by decide)).2.2 100⟩

/-- Claim C6: the classifier is total: for every integer value and every context
string it returns exactly one (message, tone) pair, and the message is a
non-empty string. -/
theorem C6_total_nonempty (v : Int) (c : String) :
    0 < (get_feedback v c).1.length ∧ ∃! r : String × String, get_feedback v c = r := by
  constructor
  · unfold get_feedback
    split_ifs <;> decide
  · exact ⟨get_feedback v c, rfl, fun r hr => hr.symm⟩

/-- Claim C7: the classifier is deterministic and pure: its result depends on
(value, context) only, so equal inputs give equal outputs. -/
theorem C7_pure_deterministic (v1 v2 : Int) (c1 c2 : String)
    (hv : v1 = v2) (hc : c1 = c2) :
    get_feedback v1 c1 = get_feedback v2 c2 := by
  rw [hv, hc]

/-- Witness for C7 at value 100 in the FASTING context. -/
theorem C7_pure_deterministic_witness :
    get_feedback 100 FASTING = get_feedback 100 FASTING :=
  C7_pure_deterministic 100 100 FASTING FASTING rfl rfl

/-- Claim C8: the persisted record is exactly seven fields in the order date,
time, numeric value, context label, message, tone, note, where the message and
tone come from the classifier applied to (value, context). -/
theorem C8_record_shape (dateS timeS : String) (value : Int)
    (mt notes : String) (fails : Bool) :
    (save_glucose_reading dateS timeS value mt notes fails).1 =
      [Field.str dateS, Field.str timeS, Field.num value, Field.str mt,
       Field.str (get_feedback value mt).1, Field.str (get_feedback value mt).2,
       Field.str notes] ∧
    (save_glucose_reading dateS timeS value mt notes fails).1.length = 7 := by
  cases fails <;> exact ⟨rfl, rfl⟩

/-- Claim C9: save_glucose_reading returns the classifier's (message, tone)
pair whether or not the external append fails, so the returned value never
depends on persistence success. -/
theorem C9_return_independent_of_persistence (dateS timeS : String) (value : Int)
    (mt notes : String) :
    (save_glucose_reading dateS timeS value mt notes true).2.1 = get_feedback value mt ∧
    (save_glucose_reading dateS timeS value mt notes false).2.1 = get_feedback value mt ∧
    (save_glucose_reading dateS timeS value mt notes true).2.1 =
      (save_glucose_reading dateS timeS value mt notes false).2.1 :=
  ⟨rfl, rfl, rfl⟩

/-- Counterexample to claim C10: no set of at most nine pairs contains every
output of the classifier, because ten concrete inputs already produce ten
pairwise distinct (message, tone) pairs. -/
theorem C10_nine_pairs_counterexample :
    ¬ ∃ s : Finset (String × String), s.card ≤ 9 ∧
        ∀ (v : Int) (c : String), get_feedback v c ∈ s := by
  rintro ⟨s, hcard, hmem⟩
  have e1 : (hypoMessage, "urgent") ∈ s :=
    (by decide : get_feedback 60 RANDOM = (hypoMessage, "urgent")) ▸ hmem 60 RANDOM
  have e2 : (hyperMessage, "urgent") ∈ s :=
    (by decide : get_feedback 260 RANDOM = (hyperMessage, "urgent")) ▸ hmem 260 RANDOM
  have e3 : (fastingGoodMessage, "good") ∈ s :=
    (by decide : get_feedback 80 FASTING = (fastingGoodMessage, "good")) ▸ hmem 80 FASTING
  have e4 : (fastingWarningMessage, "warning") ∈ s :=
    (by decide : get_feedback 110 FASTING = (fastingWarningMessage, "warning")) ▸ hmem 110 FASTING
  have e5 : (fastingAlertMessage, "alert") ∈ s :=
    (by decide : get_feedback 130 FASTING = (fastingAlertMessage, "alert")) ▸ hmem 130 FASTING
  have e6 : (postMealGoodMessage, "good") ∈ s :=
    (by decide : get_feedback 100 POST_MEAL = (postMealGoodMessage, "good")) ▸ hmem 100 POST_MEAL
  have e7 : (postMealNeutralMessage, "neutral") ∈ s :=
    (by decide : get_feedback 150 POST_MEAL = (postMealNeutralMessage, "neutral")) ▸
      hmem 150 POST_MEAL
  have e8 : (postMealAlertMessage, "alert") ∈ s :=
    (by decide : get_feedback 200 POST_MEAL = (postMealAlertMessage, "alert")) ▸ hmem 200 POST_MEAL
  have e9 : (randomNeutralMessage, "neutral") ∈ s :=
    (by decide : get_feedback 100 RANDOM = (randomNeutralMessage, "neutral")) ▸ hmem 100 RANDOM
  have e10 : (randomWarningMessage, "warning") ∈ s :=
    (by decide : get_feedback 150 RANDOM = (randomWarningMessage, "warning")) ▸ hmem 150 RANDOM
  have hsub : tenOutputs ⊆ s := by
    intro x hx
    simp only [tenOutputs, Finset.mem_insert, Finset.mem_singleton] at hx
    rcases hx with rfl | rfl | rfl | rfl | rfl | rfl | rfl | rfl | rfl | rfl
    exacts [e1, e2, e3, e4, e5, e6, e7, e8, e9, e10]
  have hten : tenOutputs.card = 10 := by decide
  have hle := Finset.card_le_card hsub
  rw [hten] at hle
  omega

/-- Claim C10 as amended: every output of the classifier is one of a fixed set
of TEN literal (message, tone) pairs, the tone is always one of the five
labels, and equal messages imply equal tones. -/
theorem C10_amended_output_invariant (v : Int) (c : String) :
    get_feedback v c ∈ outputPairs ∧ (get_feedback v c).2 ∈ toneLabels ∧
    ∀ (w : Int) (d : String),
      (get_feedback w d).1 = (get_feedback v c).1 →
        (get_feedback w d).2 = (get_feedback v c).2 := by
  refine ⟨mem_outputPairs v c, ?_, ?_⟩
  · have h := mem_outputPairs v c
    have key : ∀ p ∈ outputPairs, p.2 ∈ toneLabels := by decide
    exact key _ h
  · intro w d hmsg
    have h1 := mem_outputPairs w d
    have h2 := mem_outputPairs v c
    have key : ∀ p ∈ outputPairs, ∀ q ∈ outputPairs, p.1 = q.1 → p.2 = q.2 := by decide
    exact key _ h1 _ h2 hmsg

/-- Witness for the amended C10: the output at (60, RANDOM) is one of the ten
pairs, and the equal hypoglycemia messages at (65, FASTING) and (60, RANDOM)
force equal tones. -/
theorem C10_amended_output_invariant_witness :
    get_feedback 60 RANDOM ∈ outputPairs ∧
      (get_feedback 65 FASTING).2 = (get_feedback 60 RANDOM).2 :=
  ⟨(C10_amended_output_invariant 60 RANDOM).1,
   (C10_amended_output_invariant 60 RANDOM).2.2 65 FASTING (by decide)⟩

end GlucoseApp
